import Mathlib

/-
  Verification of the puzzle-backend ledger/payment core.

  Shallow embedding of the Transaction (LedgerEntry) model, the User wallet
  balance accessor, the Stripe/Solana/Bitcoin payment services, the Stripe
  webhook handlers, and the puzzle create/solve routes.  Monetary amounts are
  modelled as rationals; external I/O (chain lookups, broadcasts, price
  oracle responses) is passed in as explicit parameters so every code path of
  the source functions is a pure, executable Lean function.
-/

namespace PuzzleBackend

/-- `status` enum of the Transaction schema (src/models/Transaction.js). -/
inductive TxStatus where
  | pending
  | completed
  | failed
  | cancelled
  | refunded
  deriving DecidableEq, Repr

/-- `type` enum of the Transaction schema (src/models/Transaction.js). -/
inductive TxType where
  | puzzle_creation
  | puzzle_solve
  | deposit
  | withdrawal
  | admin_fee
  | refund
  deriving DecidableEq, Repr

/-- `paymentMethod.type` enum of the Transaction schema. -/
inductive PayRail where
  | stripe
  | solana
  | bitcoin
  | internal
  deriving DecidableEq, Repr

/-- One Transaction document (the spec's LedgerEntry), restricted to the
fields the ledger/payment core reads or writes.  `expectedAmount` and
`frozenRate` model `paymentMethod.details.expectedAmount` and
`details.solPrice`/`details.btcPrice` for crypto deposits; `processedAt` is
modelled as a flag (set or not). -/
structure LedgerEntry where
  type : TxType
  status : TxStatus
  fromUserId : Option Nat
  toUserId : Option Nat
  puzzleId : Option Nat
  amountUsd : ℚ
  adminFee : ℚ
  processingFee : ℚ
  networkFee : ℚ
  payType : PayRail
  expectedAmount : ℚ
  frozenRate : ℚ
  externalTransactionId : Option String
  blockchainTxHash : Option String
  processedAt : Bool
  failureReason : Option String
  deriving DecidableEq, Repr

/-- `transactionSchema.methods.markCompleted` (src/models/Transaction.js):
sets status `completed` and `processedAt`, and the external/chain ids when
given (the source only assigns them when the arguments are truthy). -/
def LedgerEntry.markCompleted (t : LedgerEntry)
    (externalTxId blockchainTxHash : Option String) : LedgerEntry :=
  { t with
    status := TxStatus.completed
    processedAt := true
    externalTransactionId :=
      match externalTxId with
      | some e => some e
      | none => t.externalTransactionId
    blockchainTxHash :=
      match blockchainTxHash with
      | some h => some h
      | none => t.blockchainTxHash }

/-- `transactionSchema.methods.markFailed` (src/models/Transaction.js). -/
def LedgerEntry.markFailed (t : LedgerEntry) (reason : String) : LedgerEntry :=
  { t with
    status := TxStatus.failed
    processedAt := true
    failureReason := some reason }

namespace TransactionModel

/-- `Transaction.createDeposit` (src/models/Transaction.js): deposit entry in
default status `pending`, `toUserId` set, Stripe-style processing fee, the
crypto details (expected native amount and frozen rate) captured at creation. -/
def createDeposit (userId : Nat) (amount : ℚ) (payType : PayRail)
    (expectedAmount frozenRate : ℚ) (externalTxId : Option String) : LedgerEntry :=
  { type := TxType.deposit
    status := TxStatus.pending
    fromUserId := none
    toUserId := some userId
    puzzleId := none
    amountUsd := amount
    adminFee := 1
    processingFee := amount * (29 / 1000) + 3 / 10
    networkFee := 0
    payType := payType
    expectedAmount := expectedAmount
    frozenRate := frozenRate
    externalTransactionId := externalTxId
    blockchainTxHash := none
    processedAt := false
    failureReason := none }

/-- `Transaction.createWithdrawal` (src/models/Transaction.js): withdrawal
entry in default status `pending`, `fromUserId` set, flat $2.50 processing
fee recorded. -/
def createWithdrawal (userId : Nat) (amount : ℚ) (payType : PayRail) : LedgerEntry :=
  { type := TxType.withdrawal
    status := TxStatus.pending
    fromUserId := some userId
    toUserId := none
    puzzleId := none
    amountUsd := amount
    adminFee := 1
    processingFee := 5 / 2
    networkFee := 0
    payType := payType
    expectedAmount := 0
    frozenRate := 0
    externalTransactionId := none
    blockchainTxHash := none
    processedAt := false
    failureReason := none }

/-- `Transaction.createPuzzleCreation` (src/models/Transaction.js). -/
def createPuzzleCreation (userId puzzleId : Nat) (amount : ℚ) : LedgerEntry :=
  { type := TxType.puzzle_creation
    status := TxStatus.pending
    fromUserId := some userId
    toUserId := none
    puzzleId := some puzzleId
    amountUsd := amount
    adminFee := 1
    processingFee := 0
    networkFee := 0
    payType := PayRail.internal
    expectedAmount := 0
    frozenRate := 0
    externalTransactionId := none
    blockchainTxHash := none
    processedAt := false
    failureReason := none }

/-- `Transaction.createPuzzleSolve` (src/models/Transaction.js): creator pays
solver, both account references set. -/
def createPuzzleSolve (fromUserId toUserId puzzleId : Nat) (amount : ℚ) : LedgerEntry :=
  { type := TxType.puzzle_solve
    status := TxStatus.pending
    fromUserId := some fromUserId
    toUserId := some toUserId
    puzzleId := some puzzleId
    amountUsd := amount
    adminFee := 1
    processingFee := 0
    networkFee := 0
    payType := PayRail.internal
    expectedAmount := 0
    frozenRate := 0
    externalTransactionId := none
    blockchainTxHash := none
    processedAt := false
    failureReason := none }

/-- `Transaction.createAdminFee` (src/models/Transaction.js): `toUserId` is
null ("Admin fees go to system") and no fee is charged on the fee. -/
def createAdminFee (fromUserId : Nat) (amount : ℚ) : LedgerEntry :=
  { type := TxType.admin_fee
    status := TxStatus.pending
    fromUserId := some fromUserId
    toUserId := none
    puzzleId := none
    amountUsd := amount
    adminFee := 0
    processingFee := 0
    networkFee := 0
    payType := PayRail.internal
    expectedAmount := 0
    frozenRate := 0
    externalTransactionId := none
    blockchainTxHash := none
    processedAt := false
    failureReason := none }

end TransactionModel

/-- The wallet subdocument of the User schema (src/unnamed/part_003):
`wallet.balance`, `wallet.totalEarnings`, `wallet.totalSpent`. -/
structure Wallet where
  balance : ℚ
  totalEarnings : ℚ
  totalSpent : ℚ
  deriving DecidableEq, Repr

/-- `userSchema.methods.updateBalance` (src/unnamed/part_003), `usd` branch:
adds `amount` to the balance, bumps `totalEarnings` on a positive amount and
`totalSpent` by `Math.abs(amount)` otherwise. -/
def Wallet.updateBalance (w : Wallet) (amount : ℚ) : Wallet :=
  { balance := w.balance + amount
    totalEarnings := if 0 < amount then w.totalEarnings + amount else w.totalEarnings
    totalSpent := if 0 < amount then w.totalSpent else w.totalSpent + |amount| }

namespace Webhooks

/-- `handlePaymentIntentFailed` in src/routes/webhooks.js: for whatever entry
the payment-intent lookup finds, sets `status = 'failed'` and the failure
reason, with no check of the entry's current status.  The source does not set
`processedAt` here. -/
def handlePaymentIntentFailed (t : LedgerEntry) (lastPaymentError : Option String) :
    LedgerEntry :=
  { t with
    status := TxStatus.failed
    failureReason := some (lastPaymentError.getD "Payment failed") }

end Webhooks

namespace StripeService

/-- `StripeService.handlePaymentIntentFailed` (src/unnamed/part_001): unlike
the webhooks route, it only calls `markFailed` when the entry is `pending`. -/
def handlePaymentIntentFailed (t : LedgerEntry) (lastPaymentError : Option String) :
    LedgerEntry :=
  if t.status = TxStatus.pending then
    t.markFailed (lastPaymentError.getD "Payment failed")
  else t

end StripeService

/-- The `chain_stats` object of the Blockstream address endpoint consumed by
`BitcoinService.getAddressBalance`. -/
structure ChainStats where
  funded_txo_sum : ℤ
  spent_txo_sum : ℤ
  deriving DecidableEq, Repr

/-- One UTXO as returned by the address/utxo endpoint. -/
structure Utxo where
  txid : String
  vout : Nat
  value : ℤ
  deriving DecidableEq, Repr

namespace BitcoinService

/-- `BitcoinService.getAddressBalance` (src/services/bitcoin.js): returns the
funded-minus-spent sum from the API, and `0` whenever the API call throws
(the catch block logs and returns 0). -/
def getAddressBalance (apiResult : Except String ChainStats) : ℤ :=
  match apiResult with
  | Except.ok stats => stats.funded_txo_sum - stats.spent_txo_sum
  | Except.error _ => 0

/-- `BitcoinService.getAddressUtxos` (src/services/bitcoin.js): returns the
UTXO list from the API, and `[]` whenever the API call throws. -/
def getAddressUtxos (apiResult : Except String (List Utxo)) : List Utxo :=
  match apiResult with
  | Except.ok utxos => utxos
  | Except.error _ => []

end BitcoinService

/-- Outcome of a confirm-deposit call.  Every exit path of the source is
represented: `error` holds the thrown message (if any), `entry` and `wallet`
are the persisted entry and recipient wallet after the call (unchanged on the
error paths, which throw before any mutation), and `externalCalled` records
whether the chain-lookup step was reached. -/
structure ConfirmOutcome where
  error : Option String
  entry : LedgerEntry
  wallet : Wallet
  alreadyProcessed : Bool
  externalCalled : Bool
  deriving DecidableEq, Repr

/-- Outcome of a process-withdrawal call: the thrown message (if any), the
user wallet after the call, and the withdrawal ledger entry persisted by the
call (if any). -/
structure WithdrawalOutcome where
  error : Option String
  wallet : Wallet
  newEntry : Option LedgerEntry
  deriving DecidableEq, Repr

namespace BitcoinService

/-- `Math.floor(btc * 100000000)` — `BitcoinService.btcToSatoshis`. -/
def btcToSatoshis (btc : ℚ) : ℤ := ⌊btc * 100000000⌋

/-- `BitcoinService.satoshisToBtc`. -/
def satoshisToBtc (s : ℤ) : ℚ := (s : ℚ) / 100000000

/-- `BitcoinService.usdToBtc`: plain division by the oracle rate. -/
def usdToBtc (usdAmount rate : ℚ) : ℚ := usdAmount / rate

end BitcoinService

/-- One `vout` entry of a Bitcoin transaction as served by the explorer API. -/
structure BtcVout where
  scriptpubkey_address : String
  value : ℤ
  deriving DecidableEq, Repr

/-- A Bitcoin transaction as served by the explorer API, restricted to the
fields `confirmDeposit` reads. -/
structure BtcTx where
  vout : List BtcVout
  deriving DecidableEq, Repr

namespace BitcoinService

/-- `BitcoinService.confirmDeposit` (src/services/bitcoin.js).  The entry has
already been looked up by `transactionId` with `type = 'deposit'` and
`paymentMethod.type = 'bitcoin'`; `txInfo` is the result of the
`getTransaction(txHash)` chain lookup (`none` when the API returned nothing).
Source order: already-completed guard first, then the chain lookup, then
destination and 5%-tolerance amount checks, then `updateBalance` +
`markCompleted`. -/
def confirmDeposit (platformAddress : String) (t : LedgerEntry) (wallet : Wallet)
    (txInfo : Option BtcTx) (txHash : String) : ConfirmOutcome :=
  if t.status = TxStatus.completed then
    { error := none, entry := t, wallet := wallet
      alreadyProcessed := true, externalCalled := false }
  else
    match txInfo with
    | none =>
      { error := some "Transaction not found on blockchain", entry := t
        wallet := wallet, alreadyProcessed := false, externalCalled := true }
    | some info =>
      let expectedAmount : ℤ := btcToSatoshis t.expectedAmount
      let receivedAmount : ℤ :=
        info.vout.foldl
          (fun s o => if o.scriptpubkey_address = platformAddress then s + o.value else s) 0
      if receivedAmount = 0 then
        { error := some "Transaction not sent to platform wallet", entry := t
          wallet := wallet, alreadyProcessed := false, externalCalled := true }
      else
        let tolerance : ℚ := (expectedAmount : ℚ) * (5 / 100)
        if tolerance < |(receivedAmount : ℚ) - (expectedAmount : ℚ)| then
          { error := some "Amount mismatch", entry := t
            wallet := wallet, alreadyProcessed := false, externalCalled := true }
        else
          { error := none
            entry := t.markCompleted none (some txHash)
            wallet := wallet.updateBalance t.amountUsd
            alreadyProcessed := false, externalCalled := true }

/-- `BitcoinService.processWithdrawal` (src/services/bitcoin.js).  External
interactions are parameters: `addrValid` is `validateAddress(userWallet)`,
`rate` the oracle BTC price, `utxos` the platform-wallet UTXO set, and
`broadcastResult` the outcome of `broadcastTransaction`.  Source order:
minimum check, fee/balance check, address check, conversion, UTXO checks,
broadcast; only after a successful broadcast the balance is debited and a
`completed` withdrawal entry is persisted. -/
def processWithdrawal (userId : Nat) (wallet : Wallet) (usdAmount : ℚ)
    (addrValid : Bool) (rate : ℚ) (utxos : List Utxo)
    (broadcastResult : Except String String) : WithdrawalOutcome :=
  if usdAmount < 25 then
    { error := some "Minimum withdrawal amount is $25", wallet := wallet, newEntry := none }
  else
    let withdrawalFee : ℚ := 5
    let totalDeduction := usdAmount + withdrawalFee
    if wallet.balance < totalDeduction then
      { error := some "Insufficient balance", wallet := wallet, newEntry := none }
    else if !addrValid then
      { error := some "Invalid user wallet address", wallet := wallet, newEntry := none }
    else
      let btcAmount := usdToBtc usdAmount rate
      let satoshisAmount := btcToSatoshis btcAmount
      if utxos.isEmpty then
        { error := some "No UTXOs available in platform wallet", wallet := wallet
          newEntry := none }
      else
        let totalBalance := utxos.foldl (fun s u => s + u.value) 0
        let networkFee : ℤ := 10000
        if totalBalance < satoshisAmount + networkFee then
          { error := some "Insufficient platform wallet balance for withdrawal"
            wallet := wallet, newEntry := none }
        else
          match broadcastResult with
          | Except.error _ =>
            { error := some "Failed to broadcast transaction", wallet := wallet
              newEntry := none }
          | Except.ok txHash =>
            let t := TransactionModel.createWithdrawal userId usdAmount PayRail.bitcoin
            { error := none
              wallet := wallet.updateBalance (-totalDeduction)
              newEntry := some { t with
                status := TxStatus.completed
                processedAt := true
                blockchainTxHash := some txHash } }

end BitcoinService

namespace SolanaService

/-- `parseFloat(x.toFixed(6))`: decimal rounding to six places. -/
def round6 (x : ℚ) : ℚ := ((⌊x * 1000000 + 1 / 2⌋ : ℤ) : ℚ) / 1000000

/-- `SolanaService.usdToSol` (src/unnamed/part_002): rejects non-positive
input, divides by the oracle rate and rounds to 6 decimals. -/
def usdToSol (usdAmount rate : ℚ) : Except String ℚ :=
  if usdAmount ≤ 0 then Except.error "Invalid USD amount"
  else Except.ok (round6 (usdAmount / rate))

/-- `SolanaService.createDepositTransaction` (src/unnamed/part_002):
validates the USD bounds, converts at the current oracle `rate`, freezes the
expected SOL amount and rate into the entry via `createDeposit`, and persists
the `pending` entry. -/
def createDepositTransaction (userId : Nat) (usdAmount rate : ℚ) :
    Except String LedgerEntry :=
  if usdAmount ≤ 0 then Except.error "Invalid parameters"
  else if usdAmount < 1 then Except.error "Minimum deposit amount is $1"
  else if 10000 < usdAmount then
    Except.error "Maximum deposit amount is $10,000 per transaction"
  else
    match usdToSol usdAmount rate with
    | Except.error e => Except.error e
    | Except.ok solAmount =>
      if solAmount < 1 / 1000 then Except.error "SOL amount too small for transaction"
      else
        Except.ok
          (TransactionModel.createDeposit userId usdAmount PayRail.solana
            solAmount rate none)

end SolanaService

/-- One decoded instruction of a Solana transaction: `isSystemTransfer`
models `programId = SystemProgram ∧ decoded.type = 'Transfer'`, `toAccount`
the decoded destination account, `lamports` the decoded amount. -/
structure SolInstr where
  isSystemTransfer : Bool
  toAccount : String
  lamports : ℤ
  deriving DecidableEq, Repr

/-- A Solana transaction as returned by `getTransaction`, restricted to what
`confirmDeposit` reads: `err` models `txInfo.meta.err` being present. -/
structure SolTx where
  err : Bool
  instructions : List SolInstr
  deriving DecidableEq, Repr

namespace SolanaService

/-- `SolanaService.confirmDeposit` (src/unnamed/part_002, second class).
Source order: already-completed guard first (returning `alreadyProcessed`
before any RPC call), then the chain lookup, failed/empty-instruction guards,
the scan for a system transfer to the platform wallet, the 3%-tolerance
amount check, then `updateBalance(amount.usd)` + `markCompleted`.  (The
source also rejects a status `'expired'`, a value outside the schema's status
enum, so that branch is unreachable and not modelled.) -/
def confirmDeposit (platformWallet : String) (t : LedgerEntry) (wallet : Wallet)
    (txInfo : Option SolTx) (txHash : String) : ConfirmOutcome :=
  if t.status = TxStatus.completed then
    { error := none, entry := t, wallet := wallet
      alreadyProcessed := true, externalCalled := false }
  else
    match txInfo with
    | none =>
      { error := some "Transaction failed or not found on blockchain", entry := t
        wallet := wallet, alreadyProcessed := false, externalCalled := true }
    | some info =>
      if info.err then
        { error := some "Transaction failed or not found on blockchain", entry := t
          wallet := wallet, alreadyProcessed := false, externalCalled := true }
      else if info.instructions.isEmpty then
        { error := some "No instructions found in transaction", entry := t
          wallet := wallet, alreadyProcessed := false, externalCalled := true }
      else
        match info.instructions.find?
            (fun i => i.isSystemTransfer && i.toAccount = platformWallet) with
        | none =>
          { error := some "No valid transfer to platform wallet found", entry := t
            wallet := wallet, alreadyProcessed := false, externalCalled := true }
        | some instr =>
          let transferAmount : ℚ := (instr.lamports : ℚ) / 1000000000
          let expectedAmount := t.expectedAmount
          let tolerance := expectedAmount * (3 / 100)
          if tolerance < |transferAmount - expectedAmount| then
            { error := some "Amount mismatch", entry := t
              wallet := wallet, alreadyProcessed := false, externalCalled := true }
          else
            { error := none
              entry := t.markCompleted none (some txHash)
              wallet := wallet.updateBalance t.amountUsd
              alreadyProcessed := false, externalCalled := true }

/-- `SolanaService.processWithdrawal` (src/unnamed/part_002, second class).
`addrValid` is `validateWalletAddress(userWallet)`, `rate` the oracle SOL
price, `platformSolBalance` the platform wallet's on-chain balance, and
`sendResult` the outcome of `sendAndConfirmTransaction` (or its 45s timeout).
Only after a successful send the balance is debited and a `completed`
withdrawal entry is persisted. -/
def processWithdrawal (userId : Nat) (wallet : Wallet) (usdAmount : ℚ)
    (addrValid : Bool) (rate platformSolBalance : ℚ)
    (sendResult : Except String String) : WithdrawalOutcome :=
  if usdAmount < 10 then
    { error := some "Minimum withdrawal amount is $10", wallet := wallet, newEntry := none }
  else if 5000 < usdAmount then
    { error := some "Maximum withdrawal amount is $5,000 per transaction"
      wallet := wallet, newEntry := none }
  else
    let withdrawalFee : ℚ := 5 / 2
    let totalDeduction := usdAmount + withdrawalFee
    if wallet.balance < totalDeduction then
      { error := some "Insufficient balance", wallet := wallet, newEntry := none }
    else if !addrValid then
      { error := some "Invalid destination wallet address", wallet := wallet
        newEntry := none }
    else
      match usdToSol usdAmount rate with
      | Except.error e => { error := some e, wallet := wallet, newEntry := none }
      | Except.ok solAmount =>
        if solAmount < 1 / 1000 then
          { error := some "SOL amount too small for withdrawal", wallet := wallet
            newEntry := none }
        else if platformSolBalance < solAmount + 5 / 1000 then
          { error := some "Insufficient platform funds. Please try again later."
            wallet := wallet, newEntry := none }
        else
          match sendResult with
          | Except.error e => { error := some e, wallet := wallet, newEntry := none }
          | Except.ok txHash =>
            let t := TransactionModel.createWithdrawal userId usdAmount PayRail.solana
            { error := none
              wallet := wallet.updateBalance (-totalDeduction)
              newEntry := some { t with
                status := TxStatus.completed
                processedAt := true
                blockchainTxHash := some txHash } }

end SolanaService

namespace StripeService

/-- `StripeService.processWithdrawal` (src/unnamed/part_001).
`transferResult` is the outcome of `stripe.transfers.create`.  Source order:
minimum check, fee/balance check, transfer; only after a successful transfer
the balance is debited and a `completed` withdrawal entry is persisted. -/
def processWithdrawal (userId : Nat) (wallet : Wallet) (amount : ℚ)
    (transferResult : Except String String) : WithdrawalOutcome :=
  if amount < 10 then
    { error := some "Minimum withdrawal amount is $10", wallet := wallet, newEntry := none }
  else
    let withdrawalFee : ℚ := 5 / 2
    let totalDeduction := amount + withdrawalFee
    if wallet.balance < totalDeduction then
      { error := some "Insufficient balance", wallet := wallet, newEntry := none }
    else
      match transferResult with
      | Except.error e => { error := some e, wallet := wallet, newEntry := none }
      | Except.ok transferId =>
        let t := TransactionModel.createWithdrawal userId amount PayRail.stripe
        { error := none
          wallet := wallet.updateBalance (-totalDeduction)
          newEntry := some { t with
            status := TxStatus.completed
            processedAt := true
            externalTransactionId := some transferId } }

end StripeService

/-- C3: on every rail, when the external transfer attempt itself fails (the
broadcast / transfer / send call errors or times out), `processWithdrawal`
surfaces an error, the user's wallet is exactly the pre-call wallet, and no
withdrawal ledger entry is persisted.  (In the source the debit happens only
after a successful external call, so no reservation debit exists that would
need a compensating credit on this path.) -/
theorem withdrawal_rail_failure_preserves_balance :
    (∀ (uid : Nat) (w : Wallet) (amt : ℚ) (e : String),
      (StripeService.processWithdrawal uid w amt (Except.error e)).wallet = w ∧
      (StripeService.processWithdrawal uid w amt (Except.error e)).newEntry = none ∧
      (StripeService.processWithdrawal uid w amt (Except.error e)).error.isSome = true) ∧
    (∀ (uid : Nat) (w : Wallet) (amt : ℚ) (valid : Bool) (rate : ℚ)
        (utxos : List Utxo) (e : String),
      (BitcoinService.processWithdrawal uid w amt valid rate utxos
        (Except.error e)).wallet = w ∧
      (BitcoinService.processWithdrawal uid w amt valid rate utxos
        (Except.error e)).newEntry = none ∧
      (BitcoinService.processWithdrawal uid w amt valid rate utxos
        (Except.error e)).error.isSome = true) ∧
    (∀ (uid : Nat) (w : Wallet) (amt : ℚ) (valid : Bool) (rate pbal : ℚ) (e : String),
      (SolanaService.processWithdrawal uid w amt valid rate pbal
        (Except.error e)).wallet = w ∧
      (SolanaService.processWithdrawal uid w amt valid rate pbal
        (Except.error e)).newEntry = none ∧
      (SolanaService.processWithdrawal uid w amt valid rate pbal
        (Except.error e)).error.isSome = true) := by
  refine ⟨fun uid w amt e => ?_, fun uid w amt valid rate utxos e => ?_,
    fun uid w amt valid rate pbal e => ?_⟩
  · unfold StripeService.processWithdrawal
    dsimp only
    repeat' split
    all_goals exact ⟨rfl, rfl, rfl⟩
  · unfold BitcoinService.processWithdrawal
    dsimp only
    repeat' split
    all_goals exact ⟨rfl, rfl, rfl⟩
  · unfold SolanaService.processWithdrawal
    dsimp only
    repeat' split
    all_goals exact ⟨rfl, rfl, rfl⟩

/-- C10: on every rail, a withdrawal ledger entry is only ever persisted
directly in status `completed` with `processedAt` set, and a withdrawal that
fails at any step persists no entry at all (equivalently, whenever an entry
was persisted, the call succeeded).  No `pending` withdrawal entry is ever
observable: the entry is created, switched to `completed`, and only then
saved. -/
theorem withdrawal_entry_persisted_only_completed :
    (∀ (uid : Nat) (w : Wallet) (amt : ℚ) (r : Except String String) (t : LedgerEntry),
      ((StripeService.processWithdrawal uid w amt r).newEntry = some t →
        t.status = TxStatus.completed ∧ t.processedAt = true ∧
        t.type = TxType.withdrawal) ∧
      ((StripeService.processWithdrawal uid w amt r).newEntry = none ∨
        (StripeService.processWithdrawal uid w amt r).error = none)) ∧
    (∀ (uid : Nat) (w : Wallet) (amt : ℚ) (valid : Bool) (rate : ℚ)
        (utxos : List Utxo) (r : Except String String) (t : LedgerEntry),
      ((BitcoinService.processWithdrawal uid w amt valid rate utxos r).newEntry =
          some t →
        t.status = TxStatus.completed ∧ t.processedAt = true ∧
        t.type = TxType.withdrawal) ∧
      ((BitcoinService.processWithdrawal uid w amt valid rate utxos r).newEntry =
          none ∨
        (BitcoinService.processWithdrawal uid w amt valid rate utxos r).error =
          none)) ∧
    (∀ (uid : Nat) (w : Wallet) (amt : ℚ) (valid : Bool) (rate pbal : ℚ)
        (r : Except String String) (t : LedgerEntry),
      ((SolanaService.processWithdrawal uid w amt valid rate pbal r).newEntry =
          some t →
        t.status = TxStatus.completed ∧ t.processedAt = true ∧
        t.type = TxType.withdrawal) ∧
      ((SolanaService.processWithdrawal uid w amt valid rate pbal r).newEntry =
          none ∨
        (SolanaService.processWithdrawal uid w amt valid rate pbal r).error =
          none)) := by
  refine ⟨fun uid w amt r t => ⟨fun h => ?_, ?_⟩,
    fun uid w amt valid rate utxos r t => ⟨fun h => ?_, ?_⟩,
    fun uid w amt valid rate pbal r t => ⟨fun h => ?_, ?_⟩⟩
  · unfold StripeService.processWithdrawal at h
    dsimp only at h
    repeat' split at h
    all_goals first
      | exact Option.noConfusion h
      | (injection h with h2; subst h2; exact ⟨rfl, rfl, rfl⟩)
  · unfold StripeService.processWithdrawal
    dsimp only
    repeat' split
    all_goals first
      | exact Or.inl rfl
      | exact Or.inr rfl
  · unfold BitcoinService.processWithdrawal at h
    dsimp only at h
    repeat' split at h
    all_goals first
      | exact Option.noConfusion h
      | (injection h with h2; subst h2; exact ⟨rfl, rfl, rfl⟩)
  · unfold BitcoinService.processWithdrawal
    dsimp only
    repeat' split
    all_goals first
      | exact Or.inl rfl
      | exact Or.inr rfl
  · unfold SolanaService.processWithdrawal at h
    dsimp only at h
    repeat' split at h
    all_goals first
      | exact Option.noConfusion h
      | (injection h with h2; subst h2; exact ⟨rfl, rfl, rfl⟩)
  · unfold SolanaService.processWithdrawal
    dsimp only
    repeat' split
    all_goals first
      | exact Or.inl rfl
      | exact Or.inr rfl

/-- The entry persisted by a successful $10 Stripe withdrawal from a $20
wallet. -/
def stripeWithdrawalEntry : LedgerEntry :=
  { TransactionModel.createWithdrawal 0 10 PayRail.stripe with
    status := TxStatus.completed
    processedAt := true
    externalTransactionId := some "tr_1" }

/-- C10 witness: a concrete successful $10 Stripe withdrawal persists exactly
the completed entry. -/
theorem withdrawal_entry_persisted_only_completed_witness :
    stripeWithdrawalEntry.status = TxStatus.completed ∧
    stripeWithdrawalEntry.processedAt = true ∧
    stripeWithdrawalEntry.type = TxType.withdrawal :=
  (withdrawal_entry_persisted_only_completed.1 0 ⟨20, 0, 0⟩ 10 (Except.ok "tr_1")
    stripeWithdrawalEntry).1
    (by norm_num [StripeService.processWithdrawal, stripeWithdrawalEntry])

end PuzzleBackend

namespace PuzzleBackend

/-- A concrete completed card-deposit ledger entry, used to exercise the
webhook failure handler. -/
def completedCardDeposit : LedgerEntry :=
  (TransactionModel.createDeposit 1 50 PayRail.stripe 0 0 (some "pi_1")).markCompleted
    (some "pi_1") none

/-- C5 counterexample: the claim says a `completed` entry never changes
status, including on re-delivery of a `payment_intent.payment_failed`
webhook; but the webhooks-route handler sets a completed $50 card deposit's
status to `failed`. -/
theorem webhook_failed_redelivery_leaves_terminal_state :
    completedCardDeposit.status = TxStatus.completed ∧
    (Webhooks.handlePaymentIntentFailed completedCardDeposit none).status =
      TxStatus.failed := by
  constructor
  · rfl
  · rfl

/-- C5 (amended): `markCompleted`/`markFailed` do set terminal states, and
the StripeService-level failure handler is monotonic (it leaves any
non-pending entry untouched), but the webhooks route's
`payment_intent.payment_failed` handler sets the status of whatever entry it
finds to `failed` regardless of the current status — so a completed entry
does leave its terminal state on re-delivery of a failed event. -/
theorem status_transitions_monotonic_except_webhook_failed :
    (∀ (t : LedgerEntry) (m : Option String),
      (Webhooks.handlePaymentIntentFailed t m).status = TxStatus.failed) ∧
    (∀ (t : LedgerEntry) (m : Option String), t.status ≠ TxStatus.pending →
      StripeService.handlePaymentIntentFailed t m = t) ∧
    (∀ (t : LedgerEntry) (e h : Option String),
      (t.markCompleted e h).status = TxStatus.completed) ∧
    (∀ (t : LedgerEntry) (r : String),
      (t.markFailed r).status = TxStatus.failed) := by
  refine ⟨fun t m => rfl, fun t m hne => ?_, fun t e h => rfl, fun t r => rfl⟩
  unfold StripeService.handlePaymentIntentFailed
  simp [hne]

/-- C5 amended, witness: the monotonic part applied to the concrete completed
card deposit. -/
theorem status_transitions_monotonic_except_webhook_failed_witness :
    StripeService.handlePaymentIntentFailed completedCardDeposit none =
      completedCardDeposit :=
  status_transitions_monotonic_except_webhook_failed.2.1 completedCardDeposit none
    (by decide)

/-- C9 counterexample: the claim says the UTXO-rail balance read never
silently returns zero on an upstream failure; but `getAddressBalance` returns
`0` and `getAddressUtxos` returns `[]` when the API call fails. -/
theorem btc_balance_read_silently_zero_on_failure :
    BitcoinService.getAddressBalance (Except.error "timeout") = 0 ∧
    BitcoinService.getAddressUtxos (Except.error "timeout") = [] := by
  exact ⟨rfl, rfl⟩

/-- C9 (amended): on any upstream API failure, `getAddressBalance` returns 0
and `getAddressUtxos` returns `[]`, exactly the values a successful read of
an empty address produces — the caller cannot distinguish a rail failure from
an empty wallet, and no distinct RailUnavailable-style error is surfaced. -/
theorem btc_balance_read_failure_indistinguishable_from_empty :
    ∀ msg : String,
      BitcoinService.getAddressBalance (Except.error msg) =
        BitcoinService.getAddressBalance (Except.ok ⟨0, 0⟩) ∧
      BitcoinService.getAddressUtxos (Except.error msg) =
        BitcoinService.getAddressUtxos (Except.ok []) := by
  intro msg
  exact ⟨rfl, rfl⟩

/-- Both confirm functions short-circuit on an already-completed entry:
no error, no mutation, `alreadyProcessed`, and no external call. -/
theorem sol_confirmDeposit_completed (platform : String) (t : LedgerEntry)
    (w : Wallet) (txInfo : Option SolTx) (hsh : String)
    (hc : t.status = TxStatus.completed) :
    SolanaService.confirmDeposit platform t w txInfo hsh =
      { error := none, entry := t, wallet := w
        alreadyProcessed := true, externalCalled := false } := by
  unfold SolanaService.confirmDeposit
  rw [if_pos hc]

/-- Bitcoin analogue of `sol_confirmDeposit_completed`. -/
theorem btc_confirmDeposit_completed (platform : String) (t : LedgerEntry)
    (w : Wallet) (txInfo : Option BtcTx) (hsh : String)
    (hc : t.status = TxStatus.completed) :
    BitcoinService.confirmDeposit platform t w txInfo hsh =
      { error := none, entry := t, wallet := w
        alreadyProcessed := true, externalCalled := false } := by
  unfold BitcoinService.confirmDeposit
  rw [if_pos hc]

/-- When the entry is not yet completed and Solana `confirmDeposit` did not
throw, the call took the success path: the balance was credited with the
entry's face USD amount and the entry was marked completed. -/
theorem sol_confirmDeposit_ok_shape (platform : String) (t : LedgerEntry)
    (w : Wallet) (txInfo : Option SolTx) (hsh : String)
    (hc : t.status ≠ TxStatus.completed)
    (herr : (SolanaService.confirmDeposit platform t w txInfo hsh).error = none) :
    SolanaService.confirmDeposit platform t w txInfo hsh =
      { error := none
        entry := t.markCompleted none (some hsh)
        wallet := w.updateBalance t.amountUsd
        alreadyProcessed := false, externalCalled := true } := by
  unfold SolanaService.confirmDeposit at herr ⊢
  rw [if_neg hc] at herr ⊢
  cases txInfo with
  | none => exact Option.noConfusion herr
  | some info =>
    dsimp only at herr ⊢
    by_cases he : info.err = true
    · simp [he] at herr
    · by_cases hemp : info.instructions.isEmpty = true
      · simp [he, hemp] at herr
      · cases hf : info.instructions.find?
            (fun i => i.isSystemTransfer && i.toAccount = platform) with
        | none => simp [he, hemp, hf] at herr
        | some instr =>
          by_cases ht : t.expectedAmount * (3 / 100) <
              |(instr.lamports : ℚ) / 1000000000 - t.expectedAmount|
          · simp [he, hemp, hf, ht] at herr
          · simp [he, hemp, hf, ht]

/-- Bitcoin analogue of `sol_confirmDeposit_ok_shape`. -/
theorem btc_confirmDeposit_ok_shape (platform : String) (t : LedgerEntry)
    (w : Wallet) (txInfo : Option BtcTx) (hsh : String)
    (hc : t.status ≠ TxStatus.completed)
    (herr : (BitcoinService.confirmDeposit platform t w txInfo hsh).error = none) :
    BitcoinService.confirmDeposit platform t w txInfo hsh =
      { error := none
        entry := t.markCompleted none (some hsh)
        wallet := w.updateBalance t.amountUsd
        alreadyProcessed := false, externalCalled := true } := by
  unfold BitcoinService.confirmDeposit at herr ⊢
  rw [if_neg hc] at herr ⊢
  cases txInfo with
  | none => exact Option.noConfusion herr
  | some info =>
    dsimp only at herr ⊢
    by_cases hz : info.vout.foldl
        (fun s o => if o.scriptpubkey_address = platform then s + o.value else s) 0 = 0
    · simp [hz] at herr
    · by_cases ht : ((BitcoinService.btcToSatoshis t.expectedAmount : ℤ) : ℚ) * (5 / 100) <
          |((info.vout.foldl
              (fun s o => if o.scriptpubkey_address = platform then s + o.value else s)
              0 : ℤ) : ℚ) -
            ((BitcoinService.btcToSatoshis t.expectedAmount : ℤ) : ℚ)|
      · simp [hz, ht] at herr
      · simp [hz, ht]

/-- C1: on both crypto rails, after a successful (not-already-processed)
`confirmDeposit`, the recipient was credited exactly the entry's face USD
amount once, and any second `confirmDeposit` call on the resulting entry —
with the same or any other chain-lookup result — returns `alreadyProcessed`,
leaves the entry and the wallet passed to it untouched, and never reaches
the external verification step (`externalCalled = false`), so in total the
balance is credited exactly once. -/
theorem confirmDeposit_second_call_is_noop :
    (∀ (platform : String) (t : LedgerEntry) (w : Wallet) (txInfo : Option SolTx)
        (hsh : String),
      (SolanaService.confirmDeposit platform t w txInfo hsh).error = none →
      (SolanaService.confirmDeposit platform t w txInfo hsh).alreadyProcessed = false →
      (SolanaService.confirmDeposit platform t w txInfo hsh).wallet.balance =
          w.balance + t.amountUsd ∧
        ∀ (w2 : Wallet) (txInfo2 : Option SolTx) (hsh2 : String),
          SolanaService.confirmDeposit platform
              (SolanaService.confirmDeposit platform t w txInfo hsh).entry
              w2 txInfo2 hsh2 =
            { error := none
              entry := (SolanaService.confirmDeposit platform t w txInfo hsh).entry
              wallet := w2, alreadyProcessed := true, externalCalled := false }) ∧
    (∀ (platform : String) (t : LedgerEntry) (w : Wallet) (txInfo : Option BtcTx)
        (hsh : String),
      (BitcoinService.confirmDeposit platform t w txInfo hsh).error = none →
      (BitcoinService.confirmDeposit platform t w txInfo hsh).alreadyProcessed = false →
      (BitcoinService.confirmDeposit platform t w txInfo hsh).wallet.balance =
          w.balance + t.amountUsd ∧
        ∀ (w2 : Wallet) (txInfo2 : Option BtcTx) (hsh2 : String),
          BitcoinService.confirmDeposit platform
              (BitcoinService.confirmDeposit platform t w txInfo hsh).entry
              w2 txInfo2 hsh2 =
            { error := none
              entry := (BitcoinService.confirmDeposit platform t w txInfo hsh).entry
              wallet := w2, alreadyProcessed := true, externalCalled := false }) := by
  constructor
  · intro platform t w txInfo hsh herr halready
    by_cases hc : t.status = TxStatus.completed
    · rw [sol_confirmDeposit_completed platform t w txInfo hsh hc] at halready
      exact Bool.noConfusion halready
    · have hshape := sol_confirmDeposit_ok_shape platform t w txInfo hsh hc herr
      rw [hshape]
      refine ⟨by simp [Wallet.updateBalance], fun w2 txInfo2 hsh2 => ?_⟩
      exact sol_confirmDeposit_completed platform _ w2 txInfo2 hsh2 rfl
  · intro platform t w txInfo hsh herr halready
    by_cases hc : t.status = TxStatus.completed
    · rw [btc_confirmDeposit_completed platform t w txInfo hsh hc] at halready
      exact Bool.noConfusion halready
    · have hshape := btc_confirmDeposit_ok_shape platform t w txInfo hsh hc herr
      rw [hshape]
      refine ⟨by simp [Wallet.updateBalance], fun w2 txInfo2 hsh2 => ?_⟩
      exact btc_confirmDeposit_completed platform _ w2 txInfo2 hsh2 rfl

/-- A concrete pending Solana deposit: $80 at a frozen rate of $80/SOL,
expecting 1 SOL. -/
def solDepositPendingEntry : LedgerEntry :=
  TransactionModel.createDeposit 1 80 PayRail.solana 1 80 none

/-- A chain transaction carrying exactly the expected 1 SOL transfer to the
platform wallet "PLAT". -/
def solDepositChainTx : SolTx :=
  { err := false
    instructions := [{ isSystemTransfer := true, toAccount := "PLAT", lamports := 1000000000 }] }

/-- A concrete pending Bitcoin deposit: $50, expecting 0.001 BTC at
$50,000/BTC. -/
def btcDepositPendingEntry : LedgerEntry :=
  TransactionModel.createDeposit 2 50 PayRail.bitcoin (1 / 1000) 50000 none

/-- A chain transaction paying exactly the expected 100000 satoshis to the
platform address "PLATB". -/
def btcDepositChainTx : BtcTx :=
  { vout := [{ scriptpubkey_address := "PLATB", value := 100000 }] }

/-- C1 witness: the idempotence theorem applied to concrete successful
Solana and Bitcoin deposit confirmations followed by re-deliveries. -/
theorem confirmDeposit_second_call_is_noop_witness :
    ((SolanaService.confirmDeposit "PLAT" solDepositPendingEntry ⟨0, 0, 0⟩
        (some solDepositChainTx) "sig1").wallet.balance =
        (⟨0, 0, 0⟩ : Wallet).balance + solDepositPendingEntry.amountUsd ∧
      SolanaService.confirmDeposit "PLAT"
          (SolanaService.confirmDeposit "PLAT" solDepositPendingEntry ⟨0, 0, 0⟩
            (some solDepositChainTx) "sig1").entry ⟨7, 0, 0⟩ none "sig2" =
        { error := none
          entry := (SolanaService.confirmDeposit "PLAT" solDepositPendingEntry
            ⟨0, 0, 0⟩ (some solDepositChainTx) "sig1").entry
          wallet := ⟨7, 0, 0⟩, alreadyProcessed := true, externalCalled := false }) ∧
    ((BitcoinService.confirmDeposit "PLATB" btcDepositPendingEntry ⟨0, 0, 0⟩
        (some btcDepositChainTx) "hash1").wallet.balance =
        (⟨0, 0, 0⟩ : Wallet).balance + btcDepositPendingEntry.amountUsd ∧
      BitcoinService.confirmDeposit "PLATB"
          (BitcoinService.confirmDeposit "PLATB" btcDepositPendingEntry ⟨0, 0, 0⟩
            (some btcDepositChainTx) "hash1").entry ⟨3, 0, 0⟩ none "hash2" =
        { error := none
          entry := (BitcoinService.confirmDeposit "PLATB" btcDepositPendingEntry
            ⟨0, 0, 0⟩ (some btcDepositChainTx) "hash1").entry
          wallet := ⟨3, 0, 0⟩, alreadyProcessed := true, externalCalled := false }) := by
  obtain ⟨hbal, hsecond⟩ :=
    confirmDeposit_second_call_is_noop.1 "PLAT" solDepositPendingEntry ⟨0, 0, 0⟩
      (some solDepositChainTx) "sig1"
      (by norm_num [SolanaService.confirmDeposit, solDepositPendingEntry,
        solDepositChainTx, TransactionModel.createDeposit]; simp)
      (by norm_num [SolanaService.confirmDeposit, solDepositPendingEntry,
        solDepositChainTx, TransactionModel.createDeposit]; simp)
  obtain ⟨hbal2, hsecond2⟩ :=
    confirmDeposit_second_call_is_noop.2 "PLATB" btcDepositPendingEntry ⟨0, 0, 0⟩
      (some btcDepositChainTx) "hash1"
      (by norm_num [BitcoinService.confirmDeposit, btcDepositPendingEntry,
        btcDepositChainTx, TransactionModel.createDeposit,
        BitcoinService.btcToSatoshis]; simp)
      (by norm_num [BitcoinService.confirmDeposit, btcDepositPendingEntry,
        btcDepositChainTx, TransactionModel.createDeposit,
        BitcoinService.btcToSatoshis]; simp)
  exact ⟨⟨hbal, hsecond ⟨7, 0, 0⟩ none "sig2"⟩, ⟨hbal2, hsecond2 ⟨3, 0, 0⟩ none "hash2"⟩⟩

/-- C7: the crypto-deposit tolerance band.  On each rail the tolerance is a
fixed fraction in the 3–5% range of the frozen expected amount (3% on the
Solana rail, 5% on the Bitcoin rail): a pending deposit whose observed
on-chain amount is within the rail's tolerance completes and credits the face
USD amount, while an observed amount 10% below the expected amount fails with
the amount-mismatch error and leaves the entry exactly as it was — still
`pending`, so a corrected confirm can be retried. -/
theorem deposit_confirm_tolerance_band :
    (∀ (platform : String) (t : LedgerEntry) (w : Wallet) (info : SolTx)
        (instr : SolInstr) (hsh : String),
      t.status = TxStatus.pending →
      info.err = false →
      info.instructions.find? (fun i => i.isSystemTransfer && i.toAccount = platform) =
        some instr →
      |(instr.lamports : ℚ) / 1000000000 - t.expectedAmount| ≤
        t.expectedAmount * (3 / 100) →
      SolanaService.confirmDeposit platform t w (some info) hsh =
        { error := none, entry := t.markCompleted none (some hsh)
          wallet := w.updateBalance t.amountUsd
          alreadyProcessed := false, externalCalled := true }) ∧
    (∀ (platform : String) (t : LedgerEntry) (w : Wallet) (info : SolTx)
        (instr : SolInstr) (hsh : String),
      t.status = TxStatus.pending →
      info.err = false →
      info.instructions.find? (fun i => i.isSystemTransfer && i.toAccount = platform) =
        some instr →
      0 < t.expectedAmount →
      (instr.lamports : ℚ) / 1000000000 = (9 / 10) * t.expectedAmount →
      SolanaService.confirmDeposit platform t w (some info) hsh =
          { error := some "Amount mismatch", entry := t, wallet := w
            alreadyProcessed := false, externalCalled := true } ∧
        (SolanaService.confirmDeposit platform t w (some info) hsh).entry.status =
          TxStatus.pending) ∧
    (∀ (platform : String) (t : LedgerEntry) (w : Wallet) (info : BtcTx)
        (hsh : String) (r : ℤ),
      t.status = TxStatus.pending →
      info.vout.foldl
          (fun s o => if o.scriptpubkey_address = platform then s + o.value else s) 0 = r →
      r ≠ 0 →
      |(r : ℚ) - ((BitcoinService.btcToSatoshis t.expectedAmount : ℤ) : ℚ)| ≤
        ((BitcoinService.btcToSatoshis t.expectedAmount : ℤ) : ℚ) * (5 / 100) →
      BitcoinService.confirmDeposit platform t w (some info) hsh =
        { error := none, entry := t.markCompleted none (some hsh)
          wallet := w.updateBalance t.amountUsd
          alreadyProcessed := false, externalCalled := true }) ∧
    (∀ (platform : String) (t : LedgerEntry) (w : Wallet) (info : BtcTx)
        (hsh : String) (r : ℤ),
      t.status = TxStatus.pending →
      info.vout.foldl
          (fun s o => if o.scriptpubkey_address = platform then s + o.value else s) 0 = r →
      0 < BitcoinService.btcToSatoshis t.expectedAmount →
      (r : ℚ) = (9 / 10) * ((BitcoinService.btcToSatoshis t.expectedAmount : ℤ) : ℚ) →
      BitcoinService.confirmDeposit platform t w (some info) hsh =
          { error := some "Amount mismatch", entry := t, wallet := w
            alreadyProcessed := false, externalCalled := true } ∧
        (BitcoinService.confirmDeposit platform t w (some info) hsh).entry.status =
          TxStatus.pending) := by
  refine ⟨?_, ?_, ?_, ?_⟩
  · intro platform t w info instr hsh hp he hf htol
    have hc : t.status ≠ TxStatus.completed := by rw [hp]; simp
    have hemp : info.instructions.isEmpty = false := by
      cases hi : info.instructions with
      | nil => rw [hi] at hf; simp at hf
      | cons a l => rfl
    unfold SolanaService.confirmDeposit
    rw [if_neg hc]
    dsimp only
    simp [he, hemp, hf, not_lt.mpr htol]
  · intro platform t w info instr hsh hp he hf hpos hamount
    have hc : t.status ≠ TxStatus.completed := by rw [hp]; simp
    have hemp : info.instructions.isEmpty = false := by
      cases hi : info.instructions with
      | nil => rw [hi] at hf; simp at hf
      | cons a l => rfl
    have htol : t.expectedAmount * (3 / 100) <
        |(instr.lamports : ℚ) / 1000000000 - t.expectedAmount| := by
      rw [hamount,
        show (9 / 10 * t.expectedAmount - t.expectedAmount : ℚ) =
          -(t.expectedAmount / 10) by ring,
        abs_neg, abs_of_nonneg (by linarith)]
      linarith
    constructor
    · unfold SolanaService.confirmDeposit
      rw [if_neg hc]
      dsimp only
      simp [he, hemp, hf, htol]
    · unfold SolanaService.confirmDeposit
      rw [if_neg hc]
      dsimp only
      simp [he, hemp, hf, htol, hp]
  · intro platform t w info hsh r hp hr hne htol
    have hc : t.status ≠ TxStatus.completed := by rw [hp]; simp
    unfold BitcoinService.confirmDeposit
    rw [if_neg hc]
    dsimp only
    rw [hr]
    simp [hne, not_lt.mpr htol]
  · intro platform t w info hsh r hp hr hE hamount
    have hc : t.status ≠ TxStatus.completed := by rw [hp]; simp
    have hEq : (0 : ℚ) < ((BitcoinService.btcToSatoshis t.expectedAmount : ℤ) : ℚ) := by
      exact_mod_cast hE
    have hrpos : (0 : ℚ) < (r : ℚ) := by rw [hamount]; linarith
    have hne : r ≠ 0 := by
      intro h0
      rw [h0] at hrpos
      simp at hrpos
    have htol : ((BitcoinService.btcToSatoshis t.expectedAmount : ℤ) : ℚ) * (5 / 100) <
        |(r : ℚ) - ((BitcoinService.btcToSatoshis t.expectedAmount : ℤ) : ℚ)| := by
      rw [hamount,
        show (9 / 10 * ((BitcoinService.btcToSatoshis t.expectedAmount : ℤ) : ℚ) -
            ((BitcoinService.btcToSatoshis t.expectedAmount : ℤ) : ℚ) : ℚ) =
          -(((BitcoinService.btcToSatoshis t.expectedAmount : ℤ) : ℚ) / 10) by ring,
        abs_neg, abs_of_nonneg (by linarith)]
      linarith
    constructor
    · unfold BitcoinService.confirmDeposit
      rw [if_neg hc]
      dsimp only
      rw [hr]
      simp [hne, htol]
    · unfold BitcoinService.confirmDeposit
      rw [if_neg hc]
      dsimp only
      rw [hr]
      simp [hne, htol, hp]

/-- C7 witness: concrete confirmations — a Solana deposit expecting 1 SOL
confirmed with exactly 1 SOL succeeds; one confirmed with 0.9 SOL fails and
stays pending; a Bitcoin deposit expecting 100000 sats confirmed with 96000
sats (4% low, within 5%) succeeds; one confirmed with 90000 sats fails and
stays pending. -/
theorem deposit_confirm_tolerance_band_witness :
    SolanaService.confirmDeposit "PLAT" solDepositPendingEntry ⟨0, 0, 0⟩
        (some solDepositChainTx) "sig3" =
      { error := none
        entry := solDepositPendingEntry.markCompleted none (some "sig3")
        wallet := Wallet.updateBalance ⟨0, 0, 0⟩ solDepositPendingEntry.amountUsd
        alreadyProcessed := false, externalCalled := true } ∧
    (SolanaService.confirmDeposit "PLAT" solDepositPendingEntry ⟨0, 0, 0⟩
        (some { err := false
                instructions := [{ isSystemTransfer := true, toAccount := "PLAT"
                                   lamports := 900000000 }] }) "sig4" =
      { error := some "Amount mismatch", entry := solDepositPendingEntry
        wallet := ⟨0, 0, 0⟩, alreadyProcessed := false, externalCalled := true } ∧
      (SolanaService.confirmDeposit "PLAT" solDepositPendingEntry ⟨0, 0, 0⟩
        (some { err := false
                instructions := [{ isSystemTransfer := true, toAccount := "PLAT"
                                   lamports := 900000000 }] }) "sig4").entry.status =
        TxStatus.pending) ∧
    BitcoinService.confirmDeposit "PLATB" btcDepositPendingEntry ⟨0, 0, 0⟩
        (some { vout := [{ scriptpubkey_address := "PLATB", value := 96000 }] }) "hash3" =
      { error := none
        entry := btcDepositPendingEntry.markCompleted none (some "hash3")
        wallet := Wallet.updateBalance ⟨0, 0, 0⟩ btcDepositPendingEntry.amountUsd
        alreadyProcessed := false, externalCalled := true } ∧
    (BitcoinService.confirmDeposit "PLATB" btcDepositPendingEntry ⟨0, 0, 0⟩
        (some { vout := [{ scriptpubkey_address := "PLATB", value := 90000 }] }) "hash4" =
      { error := some "Amount mismatch", entry := btcDepositPendingEntry
        wallet := ⟨0, 0, 0⟩, alreadyProcessed := false, externalCalled := true } ∧
      (BitcoinService.confirmDeposit "PLATB" btcDepositPendingEntry ⟨0, 0, 0⟩
        (some { vout := [{ scriptpubkey_address := "PLATB", value := 90000 }] })
        "hash4").entry.status = TxStatus.pending) := by
  refine ⟨?_, ?_, ?_, ?_⟩
  · exact deposit_confirm_tolerance_band.1 "PLAT" solDepositPendingEntry ⟨0, 0, 0⟩
      solDepositChainTx ⟨true, "PLAT", 1000000000⟩ "sig3"
      (by norm_num [solDepositPendingEntry, TransactionModel.createDeposit])
      rfl
      (by norm_num [solDepositChainTx])
      (by norm_num [solDepositPendingEntry, TransactionModel.createDeposit])
  · exact deposit_confirm_tolerance_band.2.1 "PLAT" solDepositPendingEntry ⟨0, 0, 0⟩
      { err := false
        instructions := [{ isSystemTransfer := true, toAccount := "PLAT"
                           lamports := 900000000 }] }
      ⟨true, "PLAT", 900000000⟩ "sig4"
      (by norm_num [solDepositPendingEntry, TransactionModel.createDeposit])
      rfl
      (by norm_num)
      (by norm_num [solDepositPendingEntry, TransactionModel.createDeposit])
      (by norm_num [solDepositPendingEntry, TransactionModel.createDeposit])
  · exact deposit_confirm_tolerance_band.2.2.1 "PLATB" btcDepositPendingEntry ⟨0, 0, 0⟩
      { vout := [{ scriptpubkey_address := "PLATB", value := 96000 }] } "hash3" 96000
      (by norm_num [btcDepositPendingEntry, TransactionModel.createDeposit])
      (by norm_num)
      (by norm_num)
      (by norm_num [btcDepositPendingEntry, TransactionModel.createDeposit,
        BitcoinService.btcToSatoshis])
  · exact deposit_confirm_tolerance_band.2.2.2 "PLATB" btcDepositPendingEntry ⟨0, 0, 0⟩
      { vout := [{ scriptpubkey_address := "PLATB", value := 90000 }] } "hash4" 90000
      (by norm_num [btcDepositPendingEntry, TransactionModel.createDeposit])
      (by norm_num)
      (by norm_num [btcDepositPendingEntry, TransactionModel.createDeposit,
        BitcoinService.btcToSatoshis])
      (by norm_num [btcDepositPendingEntry, TransactionModel.createDeposit,
        BitcoinService.btcToSatoshis])

/-- C8: for a Solana deposit, `createDepositTransaction` freezes the oracle
rate and the derived expected SOL amount into the entry at creation, and a
later successful `confirmDeposit` credits exactly the entry's original
requested USD face amount (`amount.usd`) while leaving the frozen fields
untouched.  `confirmDeposit` takes no oracle rate at all, so a price drift
between creation and confirmation cannot change the credited USD amount. -/
theorem deposit_rate_frozen_credits_face_usd :
    ∀ (u : Nat) (usd r1 : ℚ) (t : LedgerEntry),
      SolanaService.createDepositTransaction u usd r1 = Except.ok t →
      (t.expectedAmount = SolanaService.round6 (usd / r1) ∧ t.frozenRate = r1 ∧
        t.amountUsd = usd ∧ t.status = TxStatus.pending) ∧
      ∀ (platform : String) (w : Wallet) (txInfo : Option SolTx) (hsh : String),
        (SolanaService.confirmDeposit platform t w txInfo hsh).error = none →
        (SolanaService.confirmDeposit platform t w txInfo hsh).wallet.balance =
            w.balance + usd ∧
          (SolanaService.confirmDeposit platform t w txInfo hsh).entry.expectedAmount =
            SolanaService.round6 (usd / r1) ∧
          (SolanaService.confirmDeposit platform t w txInfo hsh).entry.frozenRate = r1 ∧
          (SolanaService.confirmDeposit platform t w txInfo hsh).entry.amountUsd = usd := by
  intro u usd r1 t hok
  unfold SolanaService.createDepositTransaction at hok
  by_cases h0 : usd ≤ 0
  · rw [if_pos h0] at hok
    exact Except.noConfusion hok
  · rw [if_neg h0] at hok
    by_cases h1 : usd < 1
    · rw [if_pos h1] at hok
      exact Except.noConfusion hok
    · rw [if_neg h1] at hok
      by_cases h2 : (10000 : ℚ) < usd
      · rw [if_pos h2] at hok
        exact Except.noConfusion hok
      · rw [if_neg h2] at hok
        have hsol : SolanaService.usdToSol usd r1 =
            Except.ok (SolanaService.round6 (usd / r1)) := by
          unfold SolanaService.usdToSol
          rw [if_neg h0]
        rw [hsol] at hok
        dsimp only at hok
        by_cases h3 : SolanaService.round6 (usd / r1) < 1 / 1000
        · rw [if_pos h3] at hok
          exact Except.noConfusion hok
        · rw [if_neg h3] at hok
          injection hok with h4
          subst h4
          refine ⟨⟨rfl, rfl, rfl, rfl⟩, ?_⟩
          intro platform w txInfo hsh herr
          have hc : (TransactionModel.createDeposit u usd PayRail.solana
              (SolanaService.round6 (usd / r1)) r1 none).status ≠ TxStatus.completed := by
            simp [TransactionModel.createDeposit]
          rw [sol_confirmDeposit_ok_shape platform _ w txInfo hsh hc herr]
          refine ⟨?_, ?_, ?_, ?_⟩ <;>
            simp [Wallet.updateBalance, LedgerEntry.markCompleted,
              TransactionModel.createDeposit]

/-- The entry created by a concrete $80 Solana deposit at a rate of $80/SOL. -/
def solDeposit80 : LedgerEntry :=
  TransactionModel.createDeposit 7 80 PayRail.solana (SolanaService.round6 (80 / 80)) 80 none

/-- C8 witness: the frozen-rate theorem applied to a concrete $80 deposit
created at $80/SOL and confirmed against a chain transfer of 1 SOL. -/
theorem deposit_rate_frozen_credits_face_usd_witness :
    (solDeposit80.expectedAmount = SolanaService.round6 (80 / 80) ∧
      solDeposit80.frozenRate = 80 ∧ solDeposit80.amountUsd = 80 ∧
      solDeposit80.status = TxStatus.pending) ∧
    ((SolanaService.confirmDeposit "PLAT" solDeposit80 ⟨0, 0, 0⟩
        (some solDepositChainTx) "sig7").wallet.balance =
        (⟨0, 0, 0⟩ : Wallet).balance + 80 ∧
      (SolanaService.confirmDeposit "PLAT" solDeposit80 ⟨0, 0, 0⟩
        (some solDepositChainTx) "sig7").entry.expectedAmount =
        SolanaService.round6 (80 / 80) ∧
      (SolanaService.confirmDeposit "PLAT" solDeposit80 ⟨0, 0, 0⟩
        (some solDepositChainTx) "sig7").entry.frozenRate = 80 ∧
      (SolanaService.confirmDeposit "PLAT" solDeposit80 ⟨0, 0, 0⟩
        (some solDepositChainTx) "sig7").entry.amountUsd = 80) := by
  obtain ⟨hfrozen, hconf⟩ :=
    deposit_rate_frozen_credits_face_usd 7 80 80 solDeposit80
      (by norm_num [SolanaService.createDepositTransaction, SolanaService.usdToSol,
        SolanaService.round6, solDeposit80])
  exact ⟨hfrozen, hconf "PLAT" ⟨0, 0, 0⟩ (some solDepositChainTx) "sig7"
    (by norm_num [SolanaService.confirmDeposit, solDeposit80, solDepositChainTx,
      TransactionModel.createDeposit, SolanaService.round6]; simp)⟩

/-- Flat withdrawal fee actually debited by each rail's withdrawal processor
($2.50 on the Stripe and Solana rails, $5 on the Bitcoin rail). -/
def railWithdrawFee : PayRail → ℚ
  | PayRail.bitcoin => 5
  | _ => 5 / 2

/-- Minimum withdrawal amount enforced by each rail ($25 on Bitcoin, $10
elsewhere). -/
def railWithdrawMin : PayRail → ℚ
  | PayRail.bitcoin => 25
  | _ => 10

/-- System-level state for the ledger invariant: every user's wallet plus the
persisted Transaction collection. -/
structure SysState where
  wallets : Nat → Wallet
  entries : List LedgerEntry

/-- The completed operations of the reconciliation core, as performed by the
source flows (each with its external call succeeding):
deposit completion (service `confirmDeposit` / webhook success path),
withdrawal (service `processWithdrawal`), puzzle creation and puzzle solve
(src/routes/transactions.js). -/
inductive Op where
  | depositComplete (userId : Nat) (usd : ℚ) (rail : PayRail)
  | withdraw (userId : Nat) (usd : ℚ) (rail : PayRail)
  | puzzleCreate (userId puzzleId : Nat) (value : ℚ)
  | puzzleSolve (creator solver puzzleId : Nat) (value : ℚ)

/-- One completed operation applied to the system state, mirroring the
source's balance mutations and persisted entries:
* deposit completion credits `amount.usd` and completes the deposit entry;
* withdrawal debits `amount + fee` after the rail checks and persists a
  completed entry recording only `amount`;
* puzzle creation debits `value + 1` and persists a completed
  `puzzle_creation` entry of `value` plus an `admin_fee` entry of $1;
* puzzle solve credits the solver and debits the creator by `value`
  (the route rejects solving one's own puzzle) and persists one completed
  `puzzle_solve` entry. -/
def applyOp (st : SysState) (op : Op) : SysState :=
  match op with
  | Op.depositComplete u usd rail =>
    let t := (TransactionModel.createDeposit u usd rail 0 0 none).markCompleted none none
    { wallets := Function.update st.wallets u ((st.wallets u).updateBalance usd)
      entries := st.entries ++ [t] }
  | Op.withdraw u usd rail =>
    let fee := railWithdrawFee rail
    let totalDeduction := usd + fee
    if usd < railWithdrawMin rail then st
    else if (st.wallets u).balance < totalDeduction then st
    else
      let t := { TransactionModel.createWithdrawal u usd rail with
        status := TxStatus.completed, processedAt := true }
      { wallets :=
          Function.update st.wallets u ((st.wallets u).updateBalance (-totalDeduction))
        entries := st.entries ++ [t] }
  | Op.puzzleCreate u pid value =>
    let totalCost := value + 1
    if (st.wallets u).balance < totalCost then st
    else
      let t1 := { TransactionModel.createPuzzleCreation u pid value with
        status := TxStatus.completed, processedAt := true }
      let t2 := { TransactionModel.createAdminFee u 1 with
        status := TxStatus.completed, processedAt := true }
      { wallets := Function.update st.wallets u ((st.wallets u).updateBalance (-totalCost))
        entries := st.entries ++ [t1, t2] }
  | Op.puzzleSolve c sv pid value =>
    if c = sv then st
    else
      let t := { TransactionModel.createPuzzleSolve c sv pid value with
        status := TxStatus.completed, processedAt := true }
      let w1 := Function.update st.wallets sv ((st.wallets sv).updateBalance value)
      let w2 := Function.update w1 c ((w1 c).updateBalance (-value))
      { wallets := w2, entries := st.entries ++ [t] }

/-- The signed contribution of one ledger entry to account `u`: positive when
`u` is the `toUserId`, negative when `u` is the `fromUserId`. -/
def signedAmount (u : Nat) (t : LedgerEntry) : ℚ :=
  (if t.toUserId = some u then t.amountUsd else 0) -
    (if t.fromUserId = some u then t.amountUsd else 0)

/-- Signed sum of `amount.usd` over the `completed` entries touching `u`. -/
def signedCompletedSum (u : Nat) : List LedgerEntry → ℚ
  | [] => 0
  | t :: rest =>
    (if t.status = TxStatus.completed then signedAmount u t else 0) +
      signedCompletedSum u rest

/-- Total withdrawal fees debited alongside `u`'s completed withdrawals (the
fee is charged to the balance but not recorded in the entry's `amount`). -/
def withdrawalFeesCharged (u : Nat) : List LedgerEntry → ℚ
  | [] => 0
  | t :: rest =>
    (if t.status = TxStatus.completed ∧ t.type = TxType.withdrawal ∧
        t.fromUserId = some u then railWithdrawFee t.payType else 0) +
      withdrawalFeesCharged u rest

/-- All balances zero and no persisted entries. -/
def initState : SysState := { wallets := fun _ => ⟨0, 0, 0⟩, entries := [] }

theorem signedCompletedSum_append (u : Nat) (l1 l2 : List LedgerEntry) :
    signedCompletedSum u (l1 ++ l2) =
      signedCompletedSum u l1 + signedCompletedSum u l2 := by
  induction l1 with
  | nil => simp [signedCompletedSum]
  | cons t rest ih =>
    simp only [List.cons_append, signedCompletedSum, List.append_eq, ih]
    ring

theorem withdrawalFeesCharged_append (u : Nat) (l1 l2 : List LedgerEntry) :
    withdrawalFeesCharged u (l1 ++ l2) =
      withdrawalFeesCharged u l1 + withdrawalFeesCharged u l2 := by
  induction l1 with
  | nil => simp [withdrawalFeesCharged]
  | cons t rest ih =>
    simp only [List.cons_append, withdrawalFeesCharged, List.append_eq, ih]
    ring

/-- One step of the generalized balance invariant: every operation preserves
`balance = signed completed sum − withdrawal fees charged`. -/
theorem applyOp_preserves_ledger_inv (st : SysState)
    (hinv : ∀ u, (st.wallets u).balance =
      signedCompletedSum u st.entries - withdrawalFeesCharged u st.entries)
    (op : Op) :
    ∀ u, ((applyOp st op).wallets u).balance =
      signedCompletedSum u (applyOp st op).entries -
        withdrawalFeesCharged u (applyOp st op).entries := by
  intro u
  cases op with
  | depositComplete v usd rail =>
    simp only [applyOp]
    rw [signedCompletedSum_append, withdrawalFeesCharged_append]
    have hsingle : signedCompletedSum u
        [(TransactionModel.createDeposit v usd rail 0 0 none).markCompleted none none] =
        if v = u then usd else 0 := by
      simp [signedCompletedSum, signedAmount, TransactionModel.createDeposit,
        LedgerEntry.markCompleted]
    have hfee : withdrawalFeesCharged u
        [(TransactionModel.createDeposit v usd rail 0 0 none).markCompleted none none] =
        0 := by
      simp [withdrawalFeesCharged, TransactionModel.createDeposit,
        LedgerEntry.markCompleted]
    rw [hsingle, hfee]
    by_cases hu : u = v
    · subst hu
      rw [Function.update_same, if_pos rfl]
      simp only [Wallet.updateBalance]
      rw [hinv u]
      ring
    · rw [Function.update_noteq hu, if_neg (Ne.symm hu), hinv u]
      ring
  | withdraw v usd rail =>
    simp only [applyOp]
    by_cases hmin : usd < railWithdrawMin rail
    · rw [if_pos hmin]
      exact hinv u
    · rw [if_neg hmin]
      by_cases hbal : (st.wallets v).balance < usd + railWithdrawFee rail
      · rw [if_pos hbal]
        exact hinv u
      · rw [if_neg hbal]
        dsimp only
        rw [signedCompletedSum_append, withdrawalFeesCharged_append]
        have hsingle : signedCompletedSum u
            [{ TransactionModel.createWithdrawal v usd rail with
               status := TxStatus.completed, processedAt := true }] =
            -(if v = u then usd else 0) := by
          simp [signedCompletedSum, signedAmount, TransactionModel.createWithdrawal]
        have hfee : withdrawalFeesCharged u
            [{ TransactionModel.createWithdrawal v usd rail with
               status := TxStatus.completed, processedAt := true }] =
            if v = u then railWithdrawFee rail else 0 := by
          by_cases hvu : v = u
          · simp [withdrawalFeesCharged, TransactionModel.createWithdrawal, hvu]
          · simp [withdrawalFeesCharged, TransactionModel.createWithdrawal, hvu]
        rw [hsingle, hfee]
        by_cases hu : u = v
        · subst hu
          rw [Function.update_same, if_pos rfl, if_pos rfl]
          simp only [Wallet.updateBalance]
          rw [hinv u]
          ring
        · rw [Function.update_noteq hu, if_neg (Ne.symm hu), if_neg (Ne.symm hu),
            hinv u]
          ring
  | puzzleCreate v pid value =>
    simp only [applyOp]
    by_cases hbal : (st.wallets v).balance < value + 1
    · rw [if_pos hbal]
      exact hinv u
    · rw [if_neg hbal]
      dsimp only
      rw [signedCompletedSum_append, withdrawalFeesCharged_append]
      have hsingle : signedCompletedSum u
          [{ TransactionModel.createPuzzleCreation v pid value with
             status := TxStatus.completed, processedAt := true },
           { TransactionModel.createAdminFee v 1 with
             status := TxStatus.completed, processedAt := true }] =
          -(if v = u then value + 1 else 0) := by
        by_cases hvu : v = u
        · simp [signedCompletedSum, signedAmount, TransactionModel.createPuzzleCreation,
            TransactionModel.createAdminFee, hvu]
          ring
        · simp [signedCompletedSum, signedAmount, TransactionModel.createPuzzleCreation,
            TransactionModel.createAdminFee, hvu]
      have hfee : withdrawalFeesCharged u
          [{ TransactionModel.createPuzzleCreation v pid value with
             status := TxStatus.completed, processedAt := true },
           { TransactionModel.createAdminFee v 1 with
             status := TxStatus.completed, processedAt := true }] = 0 := by
        simp [withdrawalFeesCharged, TransactionModel.createPuzzleCreation,
          TransactionModel.createAdminFee]
      rw [hsingle, hfee]
      by_cases hu : u = v
      · subst hu
        rw [Function.update_same, if_pos rfl]
        simp only [Wallet.updateBalance]
        rw [hinv u]
        ring
      · rw [Function.update_noteq hu, if_neg (Ne.symm hu), hinv u]
        ring
  | puzzleSolve c sv pid value =>
    simp only [applyOp]
    by_cases hcs : c = sv
    · rw [if_pos hcs]
      exact hinv u
    · rw [if_neg hcs]
      dsimp only
      rw [signedCompletedSum_append, withdrawalFeesCharged_append]
      have hsingle : signedCompletedSum u
          [{ TransactionModel.createPuzzleSolve c sv pid value with
             status := TxStatus.completed, processedAt := true }] =
          (if sv = u then value else 0) - (if c = u then value else 0) := by
        simp [signedCompletedSum, signedAmount, TransactionModel.createPuzzleSolve]
      have hfee : withdrawalFeesCharged u
          [{ TransactionModel.createPuzzleSolve c sv pid value with
             status := TxStatus.completed, processedAt := true }] = 0 := by
        simp [withdrawalFeesCharged, TransactionModel.createPuzzleSolve]
      rw [hsingle, hfee]
      by_cases huc : u = c
      · subst huc
        rw [Function.update_same, Function.update_noteq hcs,
          if_neg (fun h => hcs h.symm), if_pos rfl]
        simp only [Wallet.updateBalance]
        rw [hinv u]
        ring
      · rw [Function.update_noteq huc]
        by_cases husv : u = sv
        · subst husv
          rw [Function.update_same, if_pos rfl, if_neg (Ne.symm huc)]
          simp only [Wallet.updateBalance]
          rw [hinv u]
          ring
        · rw [Function.update_noteq husv, if_neg (Ne.symm husv),
            if_neg (Ne.symm huc), hinv u]
          ring

/-- C2 (amended): after any sequence of completed operations from an empty
system, an account's `balanceUsd` equals the signed sum of `amount.usd` over
the completed LedgerEntries referencing it **minus the flat withdrawal fee of
each of its completed withdrawals** ($2.50 card/account-chain, $5 UTXO-chain):
withdrawals debit `amount + fee` while the persisted entry's `amount` records
only `amount`, so the plain signed-sum invariant of the claim is off by the
accumulated fees. -/
theorem balance_eq_signed_sum_minus_withdrawal_fees :
    ∀ (ops : List Op) (u : Nat),
      ((ops.foldl applyOp initState).wallets u).balance =
        signedCompletedSum u (ops.foldl applyOp initState).entries -
          withdrawalFeesCharged u (ops.foldl applyOp initState).entries := by
  have hgen : ∀ (ops : List Op) (st : SysState),
      (∀ u, (st.wallets u).balance =
        signedCompletedSum u st.entries - withdrawalFeesCharged u st.entries) →
      ∀ u, ((ops.foldl applyOp st).wallets u).balance =
        signedCompletedSum u (ops.foldl applyOp st).entries -
          withdrawalFeesCharged u (ops.foldl applyOp st).entries := by
    intro ops
    induction ops with
    | nil => intro st hst; exact hst
    | cons op rest ih =>
      intro st hst
      exact ih (applyOp st op) (applyOp_preserves_ledger_inv st hst op)
  intro ops
  exact hgen ops initState (by
    intro u
    simp [initState, signedCompletedSum, withdrawalFeesCharged])

/-- A $20 card deposit completed, then a $10 card withdrawal. -/
def c2Ops : List Op :=
  [Op.depositComplete 0 20 PayRail.stripe, Op.withdraw 0 10 PayRail.stripe]

/-- C2 counterexample: the claim says `balanceUsd` equals the signed sum of
`amount` over completed entries; after a completed $20 deposit and a
completed $10 withdrawal (which debits $12.50: amount + $2.50 fee) the
balance is $7.50 while the signed sum is $10. -/
theorem balance_signed_sum_counterexample :
    ((c2Ops.foldl applyOp initState).wallets 0).balance = 15 / 2 ∧
    signedCompletedSum 0 (c2Ops.foldl applyOp initState).entries = 10 ∧
    ((c2Ops.foldl applyOp initState).wallets 0).balance ≠
      signedCompletedSum 0 (c2Ops.foldl applyOp initState).entries := by
  have h1 : ((c2Ops.foldl applyOp initState).wallets 0).balance = 15 / 2 := by
    norm_num [c2Ops, applyOp, initState, Function.update, Wallet.updateBalance,
      railWithdrawMin, railWithdrawFee, TransactionModel.createDeposit,
      TransactionModel.createWithdrawal, LedgerEntry.markCompleted]
  have h2 : signedCompletedSum 0 (c2Ops.foldl applyOp initState).entries = 10 := by
    norm_num [c2Ops, applyOp, initState, Function.update, Wallet.updateBalance,
      railWithdrawMin, railWithdrawFee, TransactionModel.createDeposit,
      TransactionModel.createWithdrawal, LedgerEntry.markCompleted,
      signedCompletedSum, signedAmount]
    simp
    norm_num
  refine ⟨h1, h2, ?_⟩
  rw [h1, h2]
  norm_num

/-- Initial balances of the C6 scenario: creator (account 0) holds $100 and
the solver (account 1) holds $5. -/
def puzzleScenarioWallets : Nat → Wallet := fun u =>
  if u = 0 then ⟨100, 100, 0⟩ else if u = 1 then ⟨5, 5, 0⟩ else ⟨0, 0, 0⟩

/-- The C6 scenario run against the route code: create a $20 puzzle
(fee $1), then the solver solves it. -/
def puzzleScenarioFinal : SysState :=
  [Op.puzzleCreate 0 42 20, Op.puzzleSolve 0 1 42 20].foldl applyOp
    { wallets := puzzleScenarioWallets, entries := [] }

/-- C6 counterexample: the claim says the creator is debited only at creation
and stays at $79 after the solve; but the solve route debits the creator
again by the puzzle value, leaving $59. -/
theorem puzzle_creator_debited_again_counterexample :
    (puzzleScenarioFinal.wallets 0).balance = 59 ∧
    (puzzleScenarioFinal.wallets 0).balance ≠ 79 := by
  have h : (puzzleScenarioFinal.wallets 0).balance = 59 := by
    norm_num [puzzleScenarioFinal, puzzleScenarioWallets, applyOp,
      Function.update, Wallet.updateBalance, TransactionModel.createPuzzleCreation,
      TransactionModel.createAdminFee, TransactionModel.createPuzzleSolve]
  refine ⟨h, ?_⟩
  rw [h]
  norm_num

/-- C6 (amended): in the source, the creator pays at creation ($21 = value +
fee, leaving $79) **and again at solve time** (the route debits the creator
by the puzzle value when paying the solver): after the solve the creator
holds $59, the solver $25, and exactly one completed `puzzle_solve` entry of
$20 is recorded. -/
theorem puzzle_lifecycle_double_debit :
    (puzzleScenarioFinal.wallets 0).balance = 59 ∧
    (puzzleScenarioFinal.wallets 1).balance = 25 ∧
    puzzleScenarioFinal.entries.filter (fun t => t.type = TxType.puzzle_solve) =
      [{ TransactionModel.createPuzzleSolve 0 1 42 20 with
         status := TxStatus.completed, processedAt := true }] := by
  refine ⟨?_, ?_, ?_⟩
  · norm_num [puzzleScenarioFinal, puzzleScenarioWallets, applyOp,
      Function.update, Wallet.updateBalance, TransactionModel.createPuzzleCreation,
      TransactionModel.createAdminFee, TransactionModel.createPuzzleSolve]
  · norm_num [puzzleScenarioFinal, puzzleScenarioWallets, applyOp,
      Function.update, Wallet.updateBalance, TransactionModel.createPuzzleCreation,
      TransactionModel.createAdminFee, TransactionModel.createPuzzleSolve]
  · norm_num [puzzleScenarioFinal, puzzleScenarioWallets, applyOp,
      Function.update, Wallet.updateBalance, TransactionModel.createPuzzleCreation,
      TransactionModel.createAdminFee, TransactionModel.createPuzzleSolve,
      List.filter]
    rfl

/-- Status of one in-flight solve request in the race model: `snapshot` is
the `solved` flag of the puzzle document as loaded by `findOne` (set once the
load step has run), `result` the request's outcome (`some true` = paid out,
`some false` = "already solved"). -/
structure RaceProc where
  snapshot : Option Bool
  result : Option Bool
  deriving DecidableEq, Repr

/-- Shared state of the solve race: the puzzle's `solved` flag, the account
balances (index 0 is the creator, index `i + 1` the solver of request `i`),
the persisted entries, and the per-request bookkeeping. -/
structure RaceState where
  solved : Bool
  balances : List ℚ
  entries : List LedgerEntry
  procs : List RaceProc
  deriving DecidableEq, Repr

/-- `updateBalance`-style credit at a list index. -/
def creditAt (bs : List ℚ) (idx : Nat) (v : ℚ) : List ℚ :=
  bs.set idx (bs.getD idx 0 + v)

/-- The payout half of the solve route (src/routes/transactions.js,
`router.post('/:id/solve')`, correct-answer branch): mark the puzzle solved,
credit the solver, debit the creator, append one completed `puzzle_solve`
entry. -/
def paySolver (value : ℚ) (st : RaceState) (solverId : Nat) : RaceState :=
  { st with
    solved := true
    balances := creditAt (creditAt st.balances solverId value) 0 (-value)
    entries := st.entries ++
      [{ TransactionModel.createPuzzleSolve 0 solverId 0 value with
         status := TxStatus.completed, processedAt := true }] }

/-- One scheduler step of the interleaved solve race, running request `i`:
its first step loads the puzzle document (recording the shared `solved` flag
into its snapshot — the route's `findOne`); its second step is the rest of
the route body, whose already-solved check reads the **loaded document's**
`solved` field (`if (puzzle.solved)` and `addAttempt`'s `!this.solved` both
inspect the in-memory snapshot), then pays and saves.  There is no
conditional/atomic update tying the check to the current shared state. -/
def raceStep (value : ℚ) (st : RaceState) (i : Nat) : RaceState :=
  match st.procs.get? i with
  | none => st
  | some p =>
    match p.snapshot with
    | none =>
      { st with procs := st.procs.set i { p with snapshot := some st.solved } }
    | some snap =>
      match p.result with
      | some _ => st
      | none =>
        if snap then
          { st with procs := st.procs.set i { p with result := some false } }
        else
          let st1 := paySolver value st (i + 1)
          { st1 with procs := st1.procs.set i { p with result := some true } }

/-- Two concurrent solve requests against an unsolved puzzle worth $5, with
the creator holding $10. -/
def raceInit : RaceState :=
  { solved := false, balances := [10, 0, 0], entries := []
    procs := [⟨none, none⟩, ⟨none, none⟩] }

/-- The interleaving where both requests load the puzzle before either
commits. -/
def raceFinal : RaceState := [0, 1, 0, 1].foldl (raceStep 5) raceInit

/-- C4 counterexample: with N = 2 concurrent correct submissions, the
interleaving in which both requests load the unsolved puzzle before either
writes back yields **two** payouts and **two** `puzzle_solve` entries — the
creator is debited twice and no request sees "already solved" — refuting the
claim that the not-yet-solved check and the pay mutation behave as one
atomic conditional update. -/
theorem concurrent_solve_double_payout :
    raceFinal.procs.map (fun p => p.result) = [some true, some true] ∧
    raceFinal.entries.length = 2 ∧
    raceFinal.balances = [0, 5, 5] := by
  refine ⟨?_, ?_, ?_⟩
  · norm_num [raceFinal, raceInit, raceStep, paySolver, creditAt]
  · norm_num [raceFinal, raceInit, raceStep, paySolver, creditAt]
  · norm_num [raceFinal, raceInit, raceStep, paySolver, creditAt]

/-- The serialized solve model: each request runs the whole route body to
completion before the next starts, so the already-solved check reads the
current shared state.  Returns the final state and each request's outcome
(`true` = payout, `false` = "already solved"). -/
def runSolversSeq (value : ℚ) (st : RaceState) : List Nat → RaceState × List Bool
  | [] => (st, [])
  | i :: rest =>
    if st.solved then
      let r := runSolversSeq value st rest
      (r.1, false :: r.2)
    else
      let r := runSolversSeq value (paySolver value st (i + 1)) rest
      (r.1, true :: r.2)

/-- Once the puzzle is solved, every serialized solve call answers
"already solved" and changes nothing. -/
theorem runSolversSeq_solved (value : ℚ) (st : RaceState) (solvers : List Nat)
    (h : st.solved = true) :
    runSolversSeq value st solvers = (st, List.replicate solvers.length false) := by
  induction solvers with
  | nil => rfl
  | cons i rest ih => simp [runSolversSeq, h, ih, List.replicate_succ]

/-- C4 (amended): when N correct `attemptSolve` calls against the same
unsolved puzzle are **serialized** (each call completes before the next
begins), exactly one call pays out, the other N−1 receive "already solved",
and exactly one `puzzle_solve` entry is appended.  (Under interleaved
execution this fails — see the counterexample — because the check and the
mark-solved-plus-pay mutation are separate read-then-write steps, not one
atomic conditional update.) -/
theorem serialized_solve_exactly_one_payout (value : ℚ) (st : RaceState)
    (solvers : List Nat) (hunsolved : st.solved = false) (hne : solvers ≠ []) :
    (runSolversSeq value st solvers).2.count true = 1 ∧
    (runSolversSeq value st solvers).2.count false = solvers.length - 1 ∧
    (runSolversSeq value st solvers).1.entries.length = st.entries.length + 1 := by
  cases solvers with
  | nil => exact absurd rfl hne
  | cons i rest =>
    have hsolved : (paySolver value st (i + 1)).solved = true := rfl
    have hrun := runSolversSeq_solved value (paySolver value st (i + 1)) rest hsolved
    refine ⟨?_, ?_, ?_⟩
    · simp [runSolversSeq, hunsolved, hrun, List.count_replicate]
    · simp [runSolversSeq, hunsolved, hrun, List.count_replicate]
    · simp [runSolversSeq, hunsolved, hrun]
      simp [paySolver]

/-- C4 witness: three serialized solve attempts against the unsolved race
state — one payout, two "already solved", one entry appended. -/
theorem serialized_solve_exactly_one_payout_witness :
    (runSolversSeq 5 raceInit [0, 1, 2]).2.count true = 1 ∧
    (runSolversSeq 5 raceInit [0, 1, 2]).2.count false = [0, 1, 2].length - 1 ∧
    (runSolversSeq 5 raceInit [0, 1, 2]).1.entries.length =
      raceInit.entries.length + 1 :=
  serialized_solve_exactly_one_payout 5 raceInit [0, 1, 2] rfl (by simp)

end PuzzleBackend